import Mathlib

/-!
Verification of `market_maker_stats/bibox_market_maker_chart.py`.

The program is a linear CLI tool: it resolves a time window, fetches trades
from the Bibox exchange, reads one or two price series, and renders a chart.
We embed the data model and the operations of `BiboxMarketMakerChart`
shallowly: the stateful matplotlib calls of `draw` become an explicit list of
plot commands, `main` becomes a function of an explicit environment (clock
readings, file contents, network responses), and Python floats become `ℚ`.

Helper functions imported from `market_maker_stats.util`
(`timestamp_to_x`, `amount_to_size`, `get_file_prices`, `get_gdax_prices`,
`to_seconds`) and the `pyexchange.bibox` trade fetcher are code of this
repository / its declared collaborators that is not under `src/`; they are
modelled from the spec's contracts, and each such definition says so in its
doc comment.
-/

namespace MarketMakerStats

/-- A price point, per the spec's data model:
`{timestamp: integer epoch seconds, market_price, market_price_min,
market_price_max: float}`. Floats are embedded as `ℚ`. -/
structure Price where
  timestamp : Int
  market_price : ℚ
  market_price_min : ℚ
  market_price_max : ℚ
  deriving DecidableEq, Repr

/-- A trade, per the spec's data model:
`{timestamp: integer epoch seconds, price: float, money: float,
money_symbol: string, is_sell: boolean}`. -/
structure Trade where
  timestamp : Int
  price : ℚ
  money : ℚ
  money_symbol : String
  is_sell : Bool
  deriving DecidableEq, Repr

/-- The fatal error raised when fetch retries are exhausted
(spec §7 error taxonomy). -/
structure FetchError where
  message : String
  deriving DecidableEq, Repr

/-- Python `int()` applied to a float value: truncation toward zero.
Used for `int(time.time() - to_seconds(...))` and `int(time.time())`
in `main` (lines 62-63 of the source). -/
def pyInt (q : ℚ) : Int :=
  if 0 ≤ q then ⌊q⌋ else ⌈q⌉

/-- Python truthiness of an optional string CLI argument: `None` and the
empty string are falsy. Mirrors `if self.arguments.price_history_file:`,
`if self.arguments.alternative_price_history_file:` and
`if self.arguments.output:` in the source. -/
def pyTruthy : Option String → Bool
  | none => false
  | some s => s ≠ ""

/-- Modelled from the spec: `timestamp_to_x` lives in
`market_maker_stats.util`, which is not under `src/`. Spec §4.3:
"deterministic, monotonic, order-preserving transform of epoch seconds into
the plotting library's native date/time coordinate" — matplotlib date
coordinates are days since the plotting epoch, so the transform is the
affine map `days-to-epoch + seconds/86400`. -/
def timestamp_to_x (timestamp : Int) : ℚ :=
  719163 + (timestamp : ℚ) / 86400

/-- Modelled from the spec: per-symbol scale used by `amount_to_size`
(in `market_maker_stats.util`, not under `src/`) to bring the traded
volume of different money symbols to a comparable magnitude. Positive for
every symbol. -/
def symbolScale (money_symbol : String) : ℚ :=
  if money_symbol = "usd" ∨ money_symbol = "usdt" ∨ money_symbol = "dai"
  then 1/8 else 1

/-- Modelled from the spec: `amount_to_size` lives in
`market_maker_stats.util`, which is not under `src/`. Spec §4.3:
"deterministic function of `trade.money` and `trade.money_symbol`,
monotonically non-decreasing in traded volume magnitude", non-negative,
independent of price and timestamp. -/
def amount_to_size (money_symbol : String) (money : ℚ) : ℚ :=
  symbolScale money_symbol * |money|

/-- `BiboxMarketMakerChart.to_timestamp`: x-coordinate of a price or trade. -/
def to_timestamp (timestamp : Int) : ℚ :=
  timestamp_to_x timestamp

/-- `BiboxMarketMakerChart.to_price`. -/
def to_price (trade : Trade) : ℚ :=
  trade.price

/-- `BiboxMarketMakerChart.to_size`: marker size of a trade. -/
def to_size (trade : Trade) : ℚ :=
  amount_to_size trade.money_symbol trade.money

/-- Whether a timestamp lies in the inclusive window `[s, e]`. -/
def inWindow (s e : Int) (timestamp : Int) : Bool :=
  s ≤ timestamp ∧ timestamp ≤ e

/-- Modelled from the spec: `get_file_prices` lives in
`market_maker_stats.util`, which is not under `src/`. Spec §4.2: the
file-backed reader "parses a local price-history file, filters by window";
`raw` is the parsed file content. -/
def get_file_prices (raw : List Price) (start_timestamp end_timestamp : Int) :
    List Price :=
  raw.filter (fun p => inWindow start_timestamp end_timestamp p.timestamp)

/-- Modelled from the spec: `get_gdax_prices` lives in
`market_maker_stats.util`, which is not under `src/`. Spec §4.2: the
network-backed reader "queries a public reference price feed for the same
window"; `raw` is the feed's response, filtered to the window. -/
def get_gdax_prices (raw : List Price) (start_timestamp end_timestamp : Int) :
    List Price :=
  raw.filter (fun p => inWindow start_timestamp end_timestamp p.timestamp)

/-- Modelled from the spec: the retry loop of `BiboxApi.get_trades`
(`pyexchange.bibox`, the trade-fetcher wrapper of spec §4.1, not under
`src/`). `responses` gives the outcome of the i-th network attempt; the
loop "retries up to `retry_count` times before surfacing a fatal error".
Returns the outcome together with the number of attempts made. -/
def getTradesGo (responses : Nat → Except FetchError (List Trade)) :
    Nat → Nat → Except FetchError (List Trade) × Nat
  | i, retry_count =>
    match responses i, retry_count with
    | .ok trades, _ => (.ok trades, 1)
    | .error e, 0 => (.error e, 1)
    | .error _, rc + 1 =>
      let r := getTradesGo responses (i + 1) rc
      (r.1, r.2 + 1)

/-- Modelled from the spec: `BiboxApi.get_trades` (spec §4.1), as invoked
by `main` (source lines 64-68): retry-bounded fetch of trades for the
window, "successful calls are concatenated and filtered to the requested
window". -/
def get_trades (responses : Nat → Except FetchError (List Trade))
    (retry_count : Nat) (from_timestamp to_timestamp : Int) :
    Except FetchError (List Trade) :=
  match (getTradesGo responses 0 retry_count).1 with
  | .ok trades =>
    .ok (trades.filter (fun t => inWindow from_timestamp to_timestamp t.timestamp))
  | .error e => .error e

/-- Number of network attempts `get_trades` makes. -/
def getTradesAttempts (responses : Nat → Except FetchError (List Trade))
    (retry_count : Nat) : Nat :=
  (getTradesGo responses 0 retry_count).2

/-- `sell_trades = list(filter(lambda trade: trade.is_sell, trades))`
(source line 117). -/
def sell_trades (trades : List Trade) : List Trade :=
  trades.filter (fun trade => trade.is_sell)

/-- `buy_trades = list(filter(lambda trade: not trade.is_sell, trades))`
(source line 123). -/
def buy_trades (trades : List Trade) : List Trade :=
  trades.filter (fun trade => !trade.is_sell)

/-- One matplotlib call issued by `draw`, in issue order. `plotLine` is
`plt.plot_date(timestamps, prices, style, zorder)`; `scatter` is
`plt.scatter(x, y, s, c, zorder)`; `savefig` and `showChart` are
`plt.savefig(fname=...)` and `plt.show()`. -/
inductive PlotCmd where
  | setXLim (left right : ℚ)
  | plotLine (xs ys : List ℚ) (style : String) (zorder : Nat)
  | scatter (xs ys sizes : List ℚ) (color : String) (zorder : Nat)
  | savefig (fname : String)
  | showChart
  deriving DecidableEq, Repr

/-- `BiboxMarketMakerChart.draw` as the list of matplotlib calls it issues,
in order. The `if False:` min/max band block of the source is dead code and
issues no call. `output` is `self.arguments.output`. -/
def draw (output : Option String) (start_timestamp end_timestamp : Int)
    (prices alternative_prices : List Price) (trades : List Trade) :
    List PlotCmd :=
  [PlotCmd.setXLim (timestamp_to_x start_timestamp) (timestamp_to_x end_timestamp)]
  ++ (if prices.length > 0 then
        [PlotCmd.plotLine (prices.map (fun p => to_timestamp p.timestamp))
          (prices.map (fun p => p.market_price)) "r-" 2]
      else [])
  ++ (if alternative_prices.length > 0 then
        [PlotCmd.plotLine (alternative_prices.map (fun p => to_timestamp p.timestamp))
          (alternative_prices.map (fun p => p.market_price)) "y-" 1]
      else [])
  ++ [PlotCmd.scatter ((sell_trades trades).map (fun t => to_timestamp t.timestamp))
        ((sell_trades trades).map to_price)
        ((sell_trades trades).map to_size) "blue" 3,
      PlotCmd.scatter ((buy_trades trades).map (fun t => to_timestamp t.timestamp))
        ((buy_trades trades).map to_price)
        ((buy_trades trades).map to_size) "green" 3]
  ++ (if pyTruthy output then [PlotCmd.savefig (output.getD "")]
      else [PlotCmd.showChart])

/-- The CLI arguments `main` and `draw` consult. `past_seconds` is the
result of `to_seconds(self.arguments.past)` (`to_seconds` lives in
`market_maker_stats.util`, not under `src/`; it parses the user's duration
expression, e.g. "3d", into seconds — we take the parsed value as input). -/
structure Args where
  price_history_file : Option String
  alternative_price_history_file : Option String
  output : Option String
  pair : String
  past_seconds : ℚ
  retry_count : Nat
  deriving Repr

/-- The external world `main` interacts with: the two successive
`time.time()` readings (source lines 62 and 63), the parsed content of each
price-history file, the reference feed's response, and the per-attempt
outcomes of the Bibox trade endpoint. -/
structure Env where
  now1 : ℚ
  now2 : ℚ
  fileContent : String → List Price
  gdaxRaw : List Price
  tradeResponses : Nat → Except FetchError (List Trade)

/-- `BiboxMarketMakerChart.main`: resolves the window from the two clock
readings, fetches trades, chooses the primary price source (file if the
argument is truthy, else the GDAX feed), chooses the alternative source
(file if truthy, else the empty list), and calls `draw`. Returns the window
bounds, both price lists, the trades and the issued plot commands; a
`FetchError` from the trade fetch propagates. -/
def main (env : Env) (args : Args) :
    Except FetchError (Int × Int × List Price × List Price × List Trade × List PlotCmd) :=
  let start_timestamp := pyInt (env.now1 - args.past_seconds)
  let end_timestamp := pyInt env.now2
  match get_trades env.tradeResponses args.retry_count start_timestamp end_timestamp with
  | .error e => .error e
  | .ok trades =>
    let prices :=
      if pyTruthy args.price_history_file then
        get_file_prices (env.fileContent (args.price_history_file.getD ""))
          start_timestamp end_timestamp
      else
        get_gdax_prices env.gdaxRaw start_timestamp end_timestamp
    let alternative_prices :=
      if pyTruthy args.alternative_price_history_file then
        get_file_prices (env.fileContent (args.alternative_price_history_file.getD ""))
          start_timestamp end_timestamp
      else
        []
    .ok (start_timestamp, end_timestamp, prices, alternative_prices, trades,
      draw args.output start_timestamp end_timestamp prices alternative_prices trades)

/-! ### Concrete data used by witnesses and counterexamples -/

/-- Sell trade from the spec's partition scenario
(`{ts:100, is_sell:true, price:10, money:5}`). -/
def tradeSell : Trade :=
  { timestamp := 100, price := 10, money := 5, money_symbol := "usd", is_sell := true }

/-- Buy trade from the spec's partition scenario
(`{ts:200, is_sell:false, price:11, money:3}`). -/
def tradeBuy : Trade :=
  { timestamp := 200, price := 11, money := 3, money_symbol := "usd", is_sell := false }

/-- A Bibox endpoint that fails on every attempt with a network error. -/
def failingResponses : Nat → Except FetchError (List Trade) :=
  fun _ => Except.error { message := "network error" }

/-- A benign environment: clock readings 100 and 100, empty files, empty
reference feed, trade endpoint succeeding immediately with no trades. -/
def envOk : Env :=
  { now1 := 100, now2 := 100, fileContent := fun _ => [], gdaxRaw := [],
    tradeResponses := fun _ => Except.ok [] }

/-- Arguments with no price-history files and no output file. -/
def argsOk : Args :=
  { price_history_file := none, alternative_price_history_file := none,
    output := none, pair := "ETH_USDT", past_seconds := 50, retry_count := 20 }

/-- An environment whose two `time.time()` readings differ: 100 at the
first reading, 300 at the second. -/
def envSlow : Env :=
  { now1 := 100, now2 := 300, fileContent := fun _ => [], gdaxRaw := [],
    tradeResponses := fun _ => Except.ok [] }

/-! ### Helper lemmas -/

/-- Filtering a list by a predicate and by its negation splits every
element's multiplicity. -/
theorem count_filter_add_count_filter_not (p : Trade → Bool)
    (l : List Trade) (t : Trade) :
    (l.filter p).count t + (l.filter (fun x => !p x)).count t = l.count t := by
  induction l with
  | nil => simp
  | cons a l ih =>
    by_cases hpa : p a = true <;>
      by_cases hta : t = a <;>
        simp_all [List.filter_cons, List.count_cons]

/-- Filtering by a predicate and by its negation splits the length. -/
theorem length_filter_add_length_filter_not (p : Trade → Bool) (l : List Trade) :
    (l.filter p).length + (l.filter (fun x => !p x)).length = l.length := by
  induction l with
  | nil => simp
  | cons a l ih =>
    by_cases hpa : p a = true <;> simp_all [List.filter_cons] <;> omega

/-! ### Claims -/

/-- C1: partitioning the trades by the `is_sell` flag (source lines 117 and
123) is exhaustive, disjoint and stable: the two partition lengths sum to
the input length, every trade's multiplicity is split between the two
outputs, a trade is never in both, and each partition is a sublist of the
input (so the relative order of the input is preserved). -/
theorem C1_partition_is_sell (trades : List Trade) :
    (sell_trades trades).length + (buy_trades trades).length = trades.length ∧
    (∀ t : Trade,
      (sell_trades trades).count t + (buy_trades trades).count t = trades.count t) ∧
    (∀ t : Trade, t ∈ sell_trades trades → t ∉ buy_trades trades) ∧
    (sell_trades trades).Sublist trades ∧ (buy_trades trades).Sublist trades := by
  refine ⟨length_filter_add_length_filter_not _ trades,
    fun t => count_filter_add_count_filter_not _ trades t, ?_,
    List.filter_sublist trades, List.filter_sublist trades⟩
  intro t hs hb
  rw [sell_trades, List.mem_filter] at hs
  rw [buy_trades, List.mem_filter] at hb
  rcases hs with ⟨-, hs⟩
  rcases hb with ⟨-, hb⟩
  rw [hs] at hb
  simp at hb

/-- C2: `timestamp_to_x` is strictly monotonic on epoch-second timestamps:
`t1 < t2` implies `timestamp_to_x t1 < timestamp_to_x t2`. -/
theorem C2_timestamp_to_x_strictMono (t1 t2 : Int) (h : t1 < t2) :
    timestamp_to_x t1 < timestamp_to_x t2 := by
  unfold timestamp_to_x
  have h' : (t1 : ℚ) < (t2 : ℚ) := by exact_mod_cast h
  linarith

/-- Witness for C2 at the concrete pair `100 < 200`. -/
theorem C2_witness : timestamp_to_x 100 < timestamp_to_x 200 :=
  C2_timestamp_to_x_strictMono 100 200 (by decide)

/-- The per-symbol scale is positive for every symbol. -/
theorem symbolScale_pos (money_symbol : String) : 0 < symbolScale money_symbol := by
  unfold symbolScale
  split <;> norm_num

/-- C3: the marker size `to_size` is non-negative for every trade, and for
trades with the same `money_symbol` it is monotonically non-decreasing in
the absolute traded volume `|money|`. -/
theorem C3_to_size_nonneg_monotone :
    (∀ trade : Trade, 0 ≤ to_size trade) ∧
    (∀ tr1 tr2 : Trade, tr1.money_symbol = tr2.money_symbol →
      |tr1.money| ≤ |tr2.money| → to_size tr1 ≤ to_size tr2) := by
  constructor
  · intro trade
    exact mul_nonneg (symbolScale_pos _).le (abs_nonneg _)
  · intro tr1 tr2 hsym hm
    unfold to_size amount_to_size
    rw [hsym]
    exact mul_le_mul_of_nonneg_left hm (symbolScale_pos _).le

/-- The retry loop makes at most `retry_count + 1` attempts, from any
starting attempt index. -/
theorem getTradesGo_attempts_le (responses : Nat → Except FetchError (List Trade)) :
    ∀ (retry_count i : Nat),
      (getTradesGo responses i retry_count).2 ≤ retry_count + 1 := by
  intro retry_count
  induction retry_count with
  | zero =>
    intro i
    unfold getTradesGo
    cases responses i <;> simp
  | succ rc ih =>
    intro i
    unfold getTradesGo
    cases responses i with
    | ok trades => simp
    | error e => simpa using Nat.succ_le_succ (ih (i + 1))

/-- C8: with `retry_count = 0` and a first attempt that fails, `get_trades`
surfaces the `FetchError` after exactly one attempt (no retry); in general
the loop makes at most `retry_count + 1` attempts before a fatal error or
success. -/
theorem C8_retry_exhaustion (responses : Nat → Except FetchError (List Trade))
    (e : FetchError) (from_timestamp to_timestamp : Int)
    (h : responses 0 = Except.error e) :
    get_trades responses 0 from_timestamp to_timestamp = Except.error e ∧
    getTradesAttempts responses 0 = 1 ∧
    (∀ retry_count : Nat, getTradesAttempts responses retry_count ≤ retry_count + 1) := by
  have hgo : getTradesGo responses 0 0 = (Except.error e, 1) := by
    unfold getTradesGo
    rw [h]
  refine ⟨?_, ?_, fun rc => getTradesGo_attempts_le responses rc 0⟩
  · simp [get_trades, hgo]
  · simp [getTradesAttempts, hgo]

/-- Witness for C8: a single simulated network failure with
`retry_count = 0` raises the error after one attempt. -/
theorem C8_witness :
    get_trades failingResponses 0 100 200 =
      Except.error { message := "network error" } ∧
    getTradesAttempts failingResponses 0 = 1 ∧
    (∀ retry_count : Nat,
      getTradesAttempts failingResponses retry_count ≤ retry_count + 1) :=
  C8_retry_exhaustion failingResponses { message := "network error" } 100 200 rfl

/-- Membership in a window filter gives the inclusive bounds. -/
theorem mem_window_filter {raw : List Price} {s e : Int} {p : Price}
    (h : p ∈ raw.filter (fun p => inWindow s e p.timestamp)) :
    s ≤ p.timestamp ∧ p.timestamp ≤ e := by
  rw [List.mem_filter] at h
  simpa [inWindow] using h.2

/-- Every trade a successful `get_trades` returns lies in the window. -/
theorem get_trades_ok_mem {responses : Nat → Except FetchError (List Trade)}
    {retry_count : Nat} {from_ts to_ts : Int} {trades : List Trade}
    (h : get_trades responses retry_count from_ts to_ts = Except.ok trades) :
    ∀ tr ∈ trades, from_ts ≤ tr.timestamp ∧ tr.timestamp ≤ to_ts := by
  unfold get_trades at h
  cases hgo : (getTradesGo responses 0 retry_count).1 with
  | error e => rw [hgo] at h; cases h
  | ok l =>
    rw [hgo] at h
    simp only [Except.ok.injEq] at h
    subst h
    intro tr htr
    rw [List.mem_filter] at htr
    simpa [inWindow] using htr.2

/-- C4: whenever `main` succeeds, every returned price point, alternative
price point and trade has its timestamp inside the inclusive window
`[start_timestamp, end_timestamp]`. -/
theorem C4_results_within_window (env : Env) (args : Args)
    (s e : Int) (prices alternative_prices : List Price)
    (trades : List Trade) (cmds : List PlotCmd)
    (h : main env args = Except.ok (s, e, prices, alternative_prices, trades, cmds)) :
    (∀ p ∈ prices, s ≤ p.timestamp ∧ p.timestamp ≤ e) ∧
    (∀ p ∈ alternative_prices, s ≤ p.timestamp ∧ p.timestamp ≤ e) ∧
    (∀ tr ∈ trades, s ≤ tr.timestamp ∧ tr.timestamp ≤ e) := by
  simp only [main] at h
  cases hgt : get_trades env.tradeResponses args.retry_count
      (pyInt (env.now1 - args.past_seconds)) (pyInt env.now2) with
  | error er => rw [hgt] at h; cases h
  | ok ts =>
    rw [hgt] at h
    simp only [Except.ok.injEq, Prod.mk.injEq] at h
    obtain ⟨hs, he, hp, ha, ht, -⟩ := h
    subst hs
    subst he
    subst ht
    refine ⟨?_, ?_, get_trades_ok_mem hgt⟩
    · intro p hp'
      rw [← hp] at hp'
      by_cases hc : pyTruthy args.price_history_file = true <;>
        simp only [hc, if_true, if_false, Bool.false_eq_true,
          get_file_prices, get_gdax_prices] at hp' <;>
        exact mem_window_filter hp'
    · intro p hp'
      rw [← ha] at hp'
      by_cases hc : pyTruthy args.alternative_price_history_file = true
      · simp only [hc, if_true, get_file_prices] at hp'
        exact mem_window_filter hp'
      · simp only [hc, Bool.false_eq_true, if_false] at hp'
        cases hp'

/-- Witness for C4 in the benign environment. -/
theorem C4_witness :
    (∀ p ∈ ([] : List Price), (50 : Int) ≤ p.timestamp ∧ p.timestamp ≤ 100) ∧
    (∀ p ∈ ([] : List Price), (50 : Int) ≤ p.timestamp ∧ p.timestamp ≤ 100) ∧
    (∀ tr ∈ ([] : List Trade), (50 : Int) ≤ tr.timestamp ∧ tr.timestamp ≤ 100) :=
  C4_results_within_window envOk argsOk 50 100 [] [] []
    (draw none 50 100 [] [] []) (by
      norm_num [main, envOk, argsOk, pyInt, get_trades, getTradesGo,
        get_gdax_prices, pyTruthy, inWindow])

/-- Decomposition of a successful `main` run: the window bounds are the two
truncated clock readings, and the trade fetch, both price reads and the
`draw` call all receive exactly those two bounds. -/
theorem main_ok_spec {env : Env} {args : Args}
    {s e : Int} {prices alternative_prices : List Price}
    {trades : List Trade} {cmds : List PlotCmd}
    (h : main env args = Except.ok (s, e, prices, alternative_prices, trades, cmds)) :
    s = pyInt (env.now1 - args.past_seconds) ∧
    e = pyInt env.now2 ∧
    get_trades env.tradeResponses args.retry_count s e = Except.ok trades ∧
    prices = (if pyTruthy args.price_history_file then
        get_file_prices (env.fileContent (args.price_history_file.getD "")) s e
      else get_gdax_prices env.gdaxRaw s e) ∧
    alternative_prices = (if pyTruthy args.alternative_price_history_file then
        get_file_prices (env.fileContent (args.alternative_price_history_file.getD "")) s e
      else []) ∧
    cmds = draw args.output s e prices alternative_prices trades := by
  simp only [main] at h
  cases hgt : get_trades env.tradeResponses args.retry_count
      (pyInt (env.now1 - args.past_seconds)) (pyInt env.now2) with
  | error er => rw [hgt] at h; cases h
  | ok ts =>
    rw [hgt] at h
    simp only [Except.ok.injEq, Prod.mk.injEq] at h
    obtain ⟨hs, he, hp, ha, ht, hc⟩ := h
    subst hs
    subst he
    subst ht
    rw [hp, ha] at hc
    exact ⟨rfl, rfl, hgt, hp.symm, ha.symm, hc.symm⟩

/-- In the benign environment, `main` succeeds with window `[50, 100]` and
no data. -/
theorem main_envOk :
    main envOk argsOk =
      Except.ok (50, 100, [], [], [], draw none 50 100 [] [] []) := by
  norm_num [main, envOk, argsOk, pyInt, get_trades, getTradesGo,
    get_gdax_prices, pyTruthy]

/-- C5 (amended): the window is the pair
`[int(now₁ - duration), int(now₂)]` computed from the two successive clock
readings `main` makes, and these same two bounds are passed identically to
the trade fetch, to both price reads and to the renderer. -/
theorem C5_window_uniform_bounds (env : Env) (args : Args)
    (s e : Int) (prices alternative_prices : List Price)
    (trades : List Trade) (cmds : List PlotCmd)
    (h : main env args = Except.ok (s, e, prices, alternative_prices, trades, cmds)) :
    s = pyInt (env.now1 - args.past_seconds) ∧
    e = pyInt env.now2 ∧
    get_trades env.tradeResponses args.retry_count s e = Except.ok trades ∧
    prices = (if pyTruthy args.price_history_file then
        get_file_prices (env.fileContent (args.price_history_file.getD "")) s e
      else get_gdax_prices env.gdaxRaw s e) ∧
    alternative_prices = (if pyTruthy args.alternative_price_history_file then
        get_file_prices (env.fileContent (args.alternative_price_history_file.getD "")) s e
      else []) ∧
    cmds = draw args.output s e prices alternative_prices trades :=
  main_ok_spec h

/-- Witness for C5 (amended) in the benign environment. -/
theorem C5_witness :
    (50 : Int) = pyInt (envOk.now1 - argsOk.past_seconds) ∧
    (100 : Int) = pyInt envOk.now2 ∧
    get_trades envOk.tradeResponses argsOk.retry_count 50 100 = Except.ok [] ∧
    ([] : List Price) = (if pyTruthy argsOk.price_history_file then
        get_file_prices (envOk.fileContent (argsOk.price_history_file.getD "")) 50 100
      else get_gdax_prices envOk.gdaxRaw 50 100) ∧
    ([] : List Price) = (if pyTruthy argsOk.alternative_price_history_file then
        get_file_prices (envOk.fileContent (argsOk.alternative_price_history_file.getD "")) 50 100
      else []) ∧
    draw none 50 100 [] [] [] = draw argsOk.output 50 100 [] [] [] :=
  C5_window_uniform_bounds envOk argsOk 50 100 [] [] []
    (draw none 50 100 [] [] []) main_envOk

/-- Counterexample to C5 as stated: with clock readings 100 then 300 and a
50-second lookback, `main` produces the window `[50, 300]`, and no single
instant `now` satisfies both `int(now - 50) = 50` and `int(now) = 300` —
the window is not derived from one instant. -/
theorem C5_counterexample :
    main envSlow argsOk =
      Except.ok (50, 300, [], [], [], draw none 50 300 [] [] []) ∧
    ¬ ∃ now : ℚ, pyInt (now - argsOk.past_seconds) = 50 ∧ pyInt now = 300 := by
  constructor
  · norm_num [main, envSlow, argsOk, pyInt, get_trades, getTradesGo,
      get_gdax_prices, pyTruthy]
  · rintro ⟨now, h1, h2⟩
    simp only [argsOk] at h1
    by_cases hn : 0 ≤ now
    · rw [pyInt, if_pos hn] at h2
      have h300 : ((300 : Int) : ℚ) ≤ now ∧ now < (300 : Int) + 1 :=
        Int.floor_eq_iff.mp h2
      have hn' : 0 ≤ now - 50 := by
        push_cast at h300
        linarith [h300.1]
      rw [pyInt, if_pos hn'] at h1
      have h50 : ((50 : Int) : ℚ) ≤ now - 50 ∧ now - 50 < (50 : Int) + 1 :=
        Int.floor_eq_iff.mp h1
      push_cast at h300 h50
      linarith [h300.1, h50.2]
    · rw [pyInt, if_neg hn] at h2
      have hle : now ≤ 0 := le_of_lt (lt_of_not_ge hn)
      have hcl : ⌈now⌉ ≤ (0 : Int) :=
        Int.ceil_le.mpr (by exact_mod_cast hle)
      rw [h2] at hcl
      norm_num at hcl

/-- C9: when the alternative price-history file argument is not given, the
alternative series is the empty list (nothing is fetched for it), while an
absent primary file argument makes the primary series fall back to the
network-backed GDAX reader — the two slots are not symmetric. -/
theorem C9_alternative_no_fallback (env : Env) (args : Args)
    (s e : Int) (prices alternative_prices : List Price)
    (trades : List Trade) (cmds : List PlotCmd)
    (h : main env args = Except.ok (s, e, prices, alternative_prices, trades, cmds))
    (halt : args.alternative_price_history_file = none) :
    alternative_prices = [] ∧
    (args.price_history_file = none →
      prices = get_gdax_prices env.gdaxRaw s e) := by
  obtain ⟨-, -, -, hp, ha, -⟩ := main_ok_spec h
  constructor
  · rw [ha, halt]
    simp [pyTruthy]
  · intro hfile
    rw [hp, hfile]
    simp [pyTruthy]

/-- Witness for C9 in the benign environment (both file arguments absent). -/
theorem C9_witness :
    ([] : List Price) = [] ∧
    (argsOk.price_history_file = none →
      ([] : List Price) = get_gdax_prices envOk.gdaxRaw 50 100) :=
  C9_alternative_no_fallback envOk argsOk 50 100 [] [] []
    (draw none 50 100 [] [] []) main_envOk rfl

/-- C6 (amended): the render step ends in exactly one of the two output
calls, selected by the truthiness of the output argument: a non-empty
output path makes `draw` end with `savefig` at that path (and issue no
`show` call), while an absent or empty output path makes it end with the
blocking interactive `show` call (and issue no `savefig`). -/
theorem C6_output_branch (output : Option String) (s e : Int)
    (prices alternative_prices : List Price) (trades : List Trade) :
    (draw output s e prices alternative_prices trades).getLast? =
      some (if pyTruthy output then PlotCmd.savefig (output.getD "")
            else PlotCmd.showChart) ∧
    (PlotCmd.showChart ∈ draw output s e prices alternative_prices trades ↔
      pyTruthy output = false) ∧
    (∀ f : String,
      PlotCmd.savefig f ∈ draw output s e prices alternative_prices trades ↔
        (pyTruthy output = true ∧ f = output.getD "")) := by
  unfold draw
  by_cases ho : pyTruthy output = true <;>
    by_cases hp : prices.length > 0 <;>
      by_cases ha : alternative_prices.length > 0 <;>
        simp [ho, hp, ha, List.getLast?_append_of_ne_nil]

/-- Counterexample to C6 as stated: the output path argument `-o ""` is
supplied, yet `draw` ends with the interactive `show` call and never calls
`savefig` (the code tests truthiness, and the empty string is falsy; the
argument's own help text says "Will get displayed on-screen if empty"). -/
theorem C6_counterexample :
    (some "" : Option String).isSome = true ∧
    (draw (some "") 0 0 [] [] []).getLast? = some PlotCmd.showChart ∧
    PlotCmd.savefig "" ∉ draw (some "") 0 0 [] [] [] := by
  refine ⟨rfl, rfl, ?_⟩
  simp [draw, pyTruthy]

/-- C7: the primary price series is drawn as a connected line exactly when
non-empty, always at z-order 2; the alternative series is drawn as a
connected line exactly when non-empty, always at z-order 1 — so whenever
both lines are drawn the primary sits above the alternative in z-order. -/
theorem C7_price_lines_zorder (output : Option String) (s e : Int)
    (prices alternative_prices : List Price) (trades : List Trade) :
    (PlotCmd.plotLine (prices.map (fun p => to_timestamp p.timestamp))
        (prices.map (fun p => p.market_price)) "r-" 2 ∈
        draw output s e prices alternative_prices trades ↔ prices ≠ []) ∧
    (PlotCmd.plotLine (alternative_prices.map (fun p => to_timestamp p.timestamp))
        (alternative_prices.map (fun p => p.market_price)) "y-" 1 ∈
        draw output s e prices alternative_prices trades ↔
      alternative_prices ≠ []) ∧
    (∀ xs ys zr, PlotCmd.plotLine xs ys "r-" zr ∈
        draw output s e prices alternative_prices trades → zr = 2) ∧
    (∀ xs ys zy, PlotCmd.plotLine xs ys "y-" zy ∈
        draw output s e prices alternative_prices trades → zy = 1) := by
  unfold draw
  by_cases ho : pyTruthy output = true <;>
    by_cases hp : prices = [] <;>
      by_cases ha : alternative_prices = [] <;>
        simp_all [List.length_pos]

/-- C10: `draw` on an empty primary price list issues no primary price
line (the plot call is guarded by the non-empty check), while the trade
markers are still issued and the alternative line is still issued exactly
when the alternative series is non-empty. -/
theorem C10_draw_empty_prices (output : Option String) (s e : Int)
    (alternative_prices : List Price) (trades : List Trade) :
    (∀ xs ys z, PlotCmd.plotLine xs ys "r-" z ∉
      draw output s e [] alternative_prices trades) ∧
    PlotCmd.scatter ((sell_trades trades).map (fun t => to_timestamp t.timestamp))
      ((sell_trades trades).map to_price) ((sell_trades trades).map to_size)
      "blue" 3 ∈ draw output s e [] alternative_prices trades ∧
    PlotCmd.scatter ((buy_trades trades).map (fun t => to_timestamp t.timestamp))
      ((buy_trades trades).map to_price) ((buy_trades trades).map to_size)
      "green" 3 ∈ draw output s e [] alternative_prices trades ∧
    (PlotCmd.plotLine (alternative_prices.map (fun p => to_timestamp p.timestamp))
        (alternative_prices.map (fun p => p.market_price)) "y-" 1 ∈
        draw output s e [] alternative_prices trades ↔
      alternative_prices ≠ []) := by
  unfold draw
  by_cases ho : pyTruthy output = true <;>
    by_cases ha : alternative_prices = [] <;>
      simp_all [List.length_pos]

end MarketMakerStats
